import Mathlib

/-!
Verification of the PypeIt excerpt (2D co-addition engine, output writer,
quick-look NIRES CLI, KCWI instrument driver) against its natural-language
specification.  Numeric arrays are shallowly embedded as `Fin`-indexed
functions over `ℚ`; fallible code returns `Except PyErr`; file-system and
pipeline side effects are recorded as explicit event traces.
-/

/-- Kinds of aborts a call can produce.  `fatal` models `msgs.error`, the
shared error-reporting facility; the remaining constructors model raw Python
exceptions that escape without going through that facility. -/
inductive PyErr where
  | fatal (msg : String)
  | attributeError (msg : String)
  | typeError (msg : String)
  | valueError (msg : String)
  | indexError (msg : String)
  | unboundLocalError (msg : String)
  deriving Repr, DecidableEq

/-- A stack of `n` images, each `ns`×`np`, of rational pixel values
(embedding of a float ndarray of shape `(nimgs, nspec, nspat)`). -/
abbrev Stack (n ns np : ℕ) := Fin n → Fin ns → Fin np → ℚ

/-- A stack of boolean good-pixel masks (True = good). -/
abbrev MaskStack (n ns np : ℕ) := Fin n → Fin ns → Fin np → Bool

/-- A single 2D image of shape `(nspec, nspat)`. -/
abbrev Img (ns np : ℕ) := Fin ns → Fin np → ℚ

/-- Numpy's implicit bool-to-float coercion used when a boolean mask is
multiplied into a float expression. -/
def maskQ (b : Bool) : ℚ := if b then 1 else 0

/-- Weight arrays accepted by `weighted_combine` for a 3D image stack, in the
three ranks the code documents: one scalar per image, one value per image per
spectral pixel, or a full per-pixel stack.  The dimensions are carried in the
type, matching shape-correct calls. -/
inductive WeightsArr (n ns np : ℕ) where
  | rank1 (w : Fin n → ℚ)
  | rank2 (w : Fin n → Fin ns → ℚ)
  | rank3 (w : Fin n → Fin ns → Fin np → ℚ)

/-- Broadcast of a weight array to the full stack shape (the effect of
`broadcast_weights` on shape-correct input, via `np.einsum` with an
all-ones array). -/
def broadcastWeights3 {n ns np : ℕ} : WeightsArr n ns np → Stack n ns np
  | .rank1 w => fun i _ _ => w i
  | .rank2 w => fun i s _ => w i s
  | .rank3 w => w

/-- Result record of `weighted_combine` (the `nimgs ≥ 2` path): combined
science images, propagated variance images, combined good-pixel mask and the
per-pixel count of contributing images. -/
structure WCombineResult (ns np : ℕ) where
  sci_list_out : List (Img ns np)
  var_list_out : List (Img ns np)
  outmask : Fin ns → Fin np → Bool
  nused : Fin ns → Fin np → ℕ

/-- Abstract model of `astropy.stats.SigmaClip` applied along the stack axis
(an external boundary library): given the rejection threshold, `maxiters`,
the clip-reference stack and the input mask, it yields the post-rejection
mask stack.  It is a parameter of the embedding, never unfolded. -/
abbrev SigClipOracle (n ns np : ℕ) :=
  ℚ → ℕ → Stack n ns np → MaskStack n ns np → MaskStack n ns np

/-- The automatic rejection-threshold ladder of `weighted_combine`
(used only when `sigrej` is not supplied). -/
def wcombineDefaultSigrej (nimgs : ℕ) : ℚ :=
  if nimgs ≤ 2 then 100
  else if nimgs = 3 then 11/10
  else if nimgs = 4 then 13/10
  else if nimgs = 5 then 8/5
  else if nimgs = 6 then 19/10
  else 2

/-- Lines 131–145 of `coadd2d.py`: the weighted combination proper, given
whatever mask stack survived the (optional) sigma-clipping step.
`nused` is the per-pixel count of unmasked images, `weights_sum` the
mask-weighted normalisation with the `(weights_sum == 0)` guard added to the
denominator, and `outmask` is `np.any` over the stack axis. -/
def wcombineCore {n ns np : ℕ} (weights : WeightsArr n ns np)
    (mask_stack : MaskStack n ns np) (sci_list var_list : List (Stack n ns np)) :
    WCombineResult ns np :=
  let weights_stack := broadcastWeights3 weights
  let weights_mask_stack : Stack n ns np :=
    fun i s p => weights_stack i s p * maskQ (mask_stack i s p)
  let weights_sum : Img ns np := fun s p => ∑ i, weights_mask_stack i s p
  { sci_list_out := sci_list.map (fun sci_stack s p =>
      (∑ i, sci_stack i s p * weights_mask_stack i s p) /
        (weights_sum s p + (if weights_sum s p = 0 then 1 else 0)))
    var_list_out := var_list.map (fun var_stack s p =>
      (∑ i, var_stack i s p * (weights_mask_stack i s p) ^ 2) /
        (weights_sum s p + (if weights_sum s p = 0 then 1 else 0)) ^ 2)
    outmask := fun s p => decide (∃ i, mask_stack i s p = true)
    nused := fun s p => (Finset.univ.filter (fun i => mask_stack i s p = true)).card }

/-- Embedding of `weighted_combine` (coadd2d.py lines 36–145) for image
stacks.  Shape agreement of the stacks (checked by `img_list_error_check` in
the source) is enforced by the types.  The `nimgs == 1` branch returns the
reshaped inputs with the mask cast to an integer count; sigma clipping with
at least 3 images requires a clip-reference stack (fatal otherwise) and
delegates the rejection itself to the astropy oracle; requesting sigma
clipping with fewer than 3 images degrades to a warning. -/
def weighted_combine {n ns np : ℕ} (sigclip_fn : SigClipOracle n ns np)
    (weights : WeightsArr n ns np) (sci_list var_list : List (Stack n ns np))
    (inmask_stack : MaskStack n ns np) (sigma_clip : Bool)
    (sigma_clip_stack : Option (Stack n ns np)) (sigrej : Option ℚ)
    (maxiters : ℕ) : Except PyErr (WCombineResult ns np) :=
  if h1 : n = 1 then
    .ok { sci_list_out := sci_list.map (fun sci_stack s p => sci_stack ⟨0, by omega⟩ s p)
          var_list_out := var_list.map (fun var_stack s p => var_stack ⟨0, by omega⟩ s p)
          outmask := fun s p => inmask_stack ⟨0, by omega⟩ s p
          nused := fun s p => if inmask_stack ⟨0, by omega⟩ s p then 1 else 0 }
  else
    let mask_step : Except PyErr (MaskStack n ns np) :=
      if sigma_clip ∧ 3 ≤ n then
        match sigma_clip_stack with
        | none => .error (.fatal
            "You must specify sigma_clip_stack, i.e. which quantity to use for sigma clipping")
        | some clip_stack =>
          let srej := match sigrej with
            | some s => s
            | none => wcombineDefaultSigrej n
          .ok (sigclip_fn srej maxiters clip_stack inmask_stack)
      else
        .ok inmask_stack
    match mask_step with
    | .error e => .error e
    | .ok mask_stack => .ok (wcombineCore weights mask_stack sci_list var_list)

/-- A rational-valued ndarray of rank 1, 2 or 3, or an array of any other
rank (`dOther`, whose pixel data the code never touches: `broadcast_weights`
rejects it by rank alone).  The proof field of `dOther` records that it
stands only for ranks other than 1, 2 and 3. -/
inductive NDArr where
  | d1 (a : ℕ) (f : Fin a → ℚ)
  | d2 (a b : ℕ) (f : Fin a → Fin b → ℚ)
  | d3 (a b c : ℕ) (f : Fin a → Fin b → Fin c → ℚ)
  | dOther (dims : List ℕ)
      (h : ¬(dims.length = 1 ∨ dims.length = 2 ∨ dims.length = 3))

/-- Shape of an ndarray, as `numpy`'s `.shape` tuple. -/
def NDArr.shape : NDArr → List ℕ
  | d1 a _ => [a]
  | d2 a b _ => [a, b]
  | d3 a b c _ => [a, b, c]
  | dOther dims _ => dims

/-- Number of axes of an ndarray (`numpy`'s `.ndim`). -/
def NDArr.ndim : NDArr → ℕ
  | d1 _ _ => 1
  | d2 _ _ _ => 2
  | d3 _ _ _ _ => 3
  | dOther dims _ => dims.length

/-- Embedding of `broadcast_weights` (coadd2d.py lines 261–303).  Branch per
weight rank, then per target-shape length, exactly as the source:
rank 1 goes through `np.einsum` (which itself raises a `ValueError` when the
weight length disagrees with the leading target axis); rank 2 against a 2D
target and rank 3 are checked against the target shape with a fatal error on
mismatch; rank 2 against a 3D target is broadcast along the spatial axis by
`np.einsum` with no shape check at all; rank 2 against any other target
length leaves `weights_stack` unassigned (Python `UnboundLocalError` at the
return); any other rank is fatal. -/
def broadcast_weights (weights : NDArr) (shape : List ℕ) : Except PyErr NDArr :=
  match weights, shape with
  | .d1 a w, [s0, s1] =>
    if a = s0 then .ok (.d2 a s1 (fun i _ => w i))
    else .error (.valueError "einsum operands could not be broadcast together")
  | .d1 a w, [s0, s1, s2] =>
    if a = s0 then .ok (.d3 a s1 s2 (fun i _ _ => w i))
    else .error (.valueError "einsum operands could not be broadcast together")
  | .d1 _ _, _ => .error (.fatal "Image shape is not supported")
  | .d2 a b w, [s0, s1] =>
    if [a, b] = [s0, s1] then .ok (.d2 a b w)
    else .error (.fatal "The shape of weights does not match the shape of the image stack")
  | .d2 a b w, _ :: _ :: s2 :: [] => .ok (.d3 a b s2 (fun i j _ => w i j))
  | .d2 _ _ _, _ => .error (.unboundLocalError "weights_stack referenced before assignment")
  | .d3 a b c w, s =>
    if [a, b, c] = s then .ok (.d3 a b c w)
    else .error (.fatal "The shape of weights does not match the shape of the image stack")
  | .dOther _ _, _ => .error (.fatal "Unrecognized dimensionality for weights")

/-- Value lattice for the wavelength-index search: a rational or `np.inf`
(modelled as `⊤` of `WithTop ℚ`). -/
abbrev QInf := WithTop ℚ

/-- Elementwise absolute value, with `np.abs(inf) = inf`. -/
def absQInf (v : QInf) : QInf := v.map (fun x => |x|)

/-- First index of the minimal element of a list, as `np.argmin` (ties go to
the earliest index).  Auxiliary accumulator: current best index/value and the
index of the next element. -/
def npArgminAux (best : ℕ × QInf) (idx : ℕ) : List QInf → ℕ
  | [] => best.1
  | v :: rest =>
    if v < best.2 then npArgminAux (idx, v) (idx + 1) rest
    else npArgminAux best (idx + 1) rest

/-- `np.argmin` over a list of extended rationals (0 on the empty list,
which the callers never pass). -/
def npArgmin : List QInf → ℕ
  | [] => 0
  | v :: rest => npArgminAux (0, v) 1 rest

/-- Embedding of `get_wave_ind` (coadd2d.py lines 227–259).  For the lower
bound: `diff = wave_grid - wave_min`, positive entries replaced by `inf`; if
no entry is negative the bluest index 0 is taken with a warning, otherwise
`np.argmin(np.abs(diff))`.  Symmetrically for the upper bound with
`diff = wave_max - wave_grid` and the reddest index as fallback.  Each
returned index is paired with its warning flag. -/
def get_wave_ind (wave_grid : List ℚ) (wave_min wave_max : ℚ) :
    (ℕ × Bool) × (ℕ × Bool) :=
  let diffL : List QInf :=
    wave_grid.map (fun x => if 0 < x - wave_min then ⊤ else ((x - wave_min : ℚ) : QInf))
  let lower : ℕ × Bool :=
    if diffL.any (fun d => decide (d < ((0 : ℚ) : QInf))) then
      (npArgmin (diffL.map absQInf), false)
    else
      (0, true)
  let diffU : List QInf :=
    wave_grid.map (fun x => if 0 < wave_max - x then ⊤ else ((wave_max - x : ℚ) : QInf))
  let upper : ℕ × Bool :=
    if diffU.any (fun d => decide (d < ((0 : ℚ) : QInf))) then
      (npArgmin (diffU.map absQInf), false)
    else
      (wave_grid.length - 1, true)
  (lower, upper)

/-- The wavelength grid `[1, 2, ..., 100]` named by the specification's
`get_wave_ind` example. -/
def waveGrid100 : List ℚ := (List.range 100).map (fun k => ((k + 1 : ℕ) : ℚ))

/-- One row of the KCWI metadata table, holding the fields consumed by
`check_frame_type` and `lamps`: the four lamp-status strings (FeAr, ThAr,
Aux, Continuum), the four lamp-shutter strings (the fourth lamp has no
shutter card and receives the default value), the hatch and calibration-
turret position strings, and the exposure time. -/
structure KCWIMetaRow where
  lampstat01 : String
  lampstat02 : String
  lampstat03 : String
  lampstat04 : String
  lampshst01 : String
  lampshst02 : String
  lampshst03 : String
  lampshst04 : String
  hatch : String
  calpos : String
  exptime : ℚ

/-- Embedding of `KeckKCWISpectrograph.lamps` (keck_kcwi.py lines 145–196)
for one metadata row.  `off` requires every `lampstat` key to read `0` or
`None` (the shutter states are computed but unused, per the commented-out
line).  `arcs` requires an arc lamp (1 or 2) with status `1` and shutter
`1`, while the continuum lamp (4) status is `0` (the broadcast of the
single-row continuum predicate over both arc lamps).  `dome`/`dome_noarc`
require continuum status `1`, the `_noarc` variant additionally both arc
statuses `0`.  Any other status name raises `ValueError`. -/
def kcwi_lamps (row : KCWIMetaRow) (status : String) : Except PyErr Bool :=
  if status = "off" then
    .ok (((row.lampstat01 == "0") || (row.lampstat01 == "None")) &&
         ((row.lampstat02 == "0") || (row.lampstat02 == "None")) &&
         ((row.lampstat03 == "0") || (row.lampstat03 == "None")) &&
         ((row.lampstat04 == "0") || (row.lampstat04 == "None")))
  else if status = "arcs" then
    .ok (((row.lampstat01 == "1") && (row.lampshst01 == "1") && (row.lampstat04 == "0")) ||
         ((row.lampstat02 == "1") && (row.lampshst02 == "1") && (row.lampstat04 == "0")))
  else if status = "dome_noarc" ∨ status = "dome" then
    let lamp_stat := row.lampstat04 == "1"
    if status = "dome_noarc" then
      .ok (lamp_stat && (row.lampstat01 == "0") && (row.lampstat02 == "0"))
    else
      .ok lamp_stat
  else
    .error (.valueError ("No implementation for status = " ++ status))

/-- Modelled from the spec: `framematch.check_frame_exptime` (the
exposure-time range filter) is not part of the provided sources; per the
specification it is an "optional exposure-time range filter", passing every
row when no range is supplied and otherwise keeping rows whose exposure time
lies inside the (open-ended) range. -/
def check_frame_exptime (exptime : ℚ) (exprng : Option (Option ℚ × Option ℚ)) : Bool :=
  match exprng with
  | none => true
  | some (lo, hi) =>
    (match lo with | none => true | some l => decide (l < exptime)) &&
    (match hi with | none => true | some h => decide (exptime < h))

/-- Embedding of `KeckKCWISpectrograph.check_frame_type` (keck_kcwi.py lines
118–143) for one metadata row: `science` is all-lamps-off with hatch `1`;
`bias` and `dark` are all-lamps-off with hatch `0`; `pixelflat`/`trace` are
`dome_noarc` with hatch `0` and turret position `6`; `bar` is `dome` with
hatch `0` and turret position `4`; `arc`/`tilt` are `arcs` with hatch `0`;
`pinhole` is never typed; any other type warns and is all-false. -/
def kcwi_check_frame_type (ftype : String) (row : KCWIMetaRow)
    (exprng : Option (Option ℚ × Option ℚ)) : Except PyErr Bool :=
  let good_exp := check_frame_exptime row.exptime exprng
  let withLamps (status : String) (extra : Bool) : Except PyErr Bool :=
    match kcwi_lamps row status with
    | .error e => .error e
    | .ok l => .ok (good_exp && l && extra)
  if ftype = "science" then
    withLamps "off" (row.hatch == "1")
  else if ftype = "bias" then
    withLamps "off" (row.hatch == "0")
  else if ftype = "pixelflat" ∨ ftype = "trace" then
    withLamps "dome_noarc" ((row.hatch == "0") && (row.calpos == "6"))
  else if ftype = "dark" then
    withLamps "off" (row.hatch == "0")
  else if ftype = "bar" then
    withLamps "dome" ((row.hatch == "0") && (row.calpos == "4"))
  else if ftype = "arc" ∨ ftype = "tilt" then
    withLamps "arcs" (row.hatch == "0")
  else if ftype = "pinhole" then
    .ok false
  else
    .ok false

/-- One entry of the KCWI bad-column literal table, in source order
`[b0, b1, b2, b3]`: the mask assignment is
`bpm_img[b2 : b3 + 1, b0 : b1 + 1] = 1`, i.e. rows `b2..b3` and columns
`b0..b1`, both inclusive. -/
structure BadColEntry where
  b0 : ℕ
  b1 : ℕ
  b2 : ℕ
  b3 : ℕ
  deriving Repr, DecidableEq

/-- The bad-column lookup of `KeckKCWIBSpectrograph.bpm` (keck_kcwi.py lines
457–485): `bc` starts as `None`, the `ALL`/`TBO` chain may set it, and an
independent `if` for `TUP` may overwrite it; `none` means no table entry
(warning, empty list). -/
def kcwiB_badcol_table (ampmode binning : String) : Option (List BadColEntry) :=
  let bc : Option (List BadColEntry) := none
  let bc :=
    if ampmode = "ALL" then
      if binning = "1,1" then some [⟨3676, 3676, 2056, 2244⟩]
      else if binning = "2,2" then some [⟨1838, 1838, 1028, 1121⟩]
      else bc
    else if ampmode = "TBO" then
      if binning = "1,1" then some [⟨2622, 2622, 619, 687⟩, ⟨2739, 2739, 1748, 1860⟩,
                                    ⟨3295, 3300, 2556, 2560⟩, ⟨3675, 3676, 2243, 4111⟩]
      else if binning = "2,2" then some [⟨1311, 1311, 310, 354⟩, ⟨1369, 1369, 876, 947⟩,
                                         ⟨1646, 1650, 1278, 1280⟩, ⟨1838, 1838, 1122, 2055⟩]
      else bc
    else bc
  if ampmode = "TUP" then
    if binning = "1,1" then some [⟨2622, 2622, 3492, 3528⟩, ⟨3295, 3300, 1550, 1555⟩,
                                  ⟨3676, 3676, 1866, 4111⟩]
    else if binning = "2,2" then some [⟨1311, 1311, 1745, 1788⟩, ⟨1646, 1650, 775, 777⟩,
                                       ⟨1838, 1838, 933, 2055⟩]
    else bc
  else bc

/-- Embedding of `KeckKCWIBSpectrograph.bpm` (keck_kcwi.py lines 423–489) as
the per-pixel mask value at row `r`, column `c`.  The mask starts from the
all-good `empty_bpm`; if a master bias is supplied the bias-derived defect
path (external capability `bpm_frombias`, a parameter here) is returned
immediately; otherwise each table entry paints its inclusive rectangular
block `rows b2..b3 × cols b0..b1` with 1. -/
def kcwiB_bpm (bpm_frombias : ℕ → ℕ → ℕ) (msbias : Bool)
    (ampmode binning : String) (r c : ℕ) : ℕ :=
  if msbias then bpm_frombias r c
  else
    let bc := (kcwiB_badcol_table ampmode binning).getD []
    if bc.any (fun e => decide (e.b2 ≤ r ∧ r ≤ e.b3 ∧ e.b0 ≤ c ∧ c ≤ e.b1))
    then 1 else 0

/-- Effect trace of the output writer: directory creation, warnings through
the reporting facility, FITS writes and ASCII-table writes. -/
inductive SaveEvent where
  | mkdirEvt (path : String)
  | warnEvt (msg : String)
  | writeFitsEvt (path : String)
  | writeTxtEvt (path : String)
  deriving Repr, DecidableEq

/-- Model of `os.path.join` for the single-component joins used here. -/
def pathJoin (dir file : String) : String := dir ++ "/" ++ file

/-- Embedding of `save_obj_info` (save.py lines 172–245) at the granularity
of its file effect: one summary row is built per (non-absent) extracted
object, and the fixed-width ASCII table is written only when at least one
row exists. -/
def save_obj_info {α : Type} (all_specobjs : List α) (outfile : String) :
    List SaveEvent :=
  if 0 < all_specobjs.length then [SaveEvent.writeTxtEvt outfile] else []

/-- Embedding of `save_all` (save.py lines 25–89) as its effect trace.  The
per-detector dictionary is modelled as the list of its entries, each either
`none` (no `specobjs` key, skipped via the caught `KeyError`) or the
detector's extracted-object list.  The output directory is created when
absent; the aggregated collection decides whether the 1D file and summary
table are written; the 2D file is always written. -/
def save_all {α : Type} (dirExists : Bool) (sci_dict : List (Option (List α)))
    (scipath basename : String) : List SaveEvent :=
  let pre := if dirExists then [] else [SaveEvent.mkdirEvt scipath]
  let outfile1d := pathJoin scipath ("spec1d_" ++ basename ++ ".fits")
  let outfile2d := pathJoin scipath ("spec2d_" ++ basename ++ ".fits")
  let outfiletxt := pathJoin scipath ("spec1d_" ++ basename ++ ".txt")
  let all_specobjs := (sci_dict.filterMap id).flatten
  let mid :=
    if all_specobjs.length = 0 then
      [SaveEvent.warnEvt "No objects to save. Only writing spec2d files!"]
    else
      [SaveEvent.writeFitsEvt outfile1d] ++ save_obj_info all_specobjs outfiletxt
  pre ++ mid ++ [SaveEvent.writeFitsEvt outfile2d]

/-- Effect trace of the quick-look NIRES driver: writing the PypeIt
configuration file(s), instantiating the pipeline-execution object, running
the reduction, and generating the QA HTML. -/
inductive QLEvent where
  | writeConfigEvt (files : List String)
  | instantiatePypeIt (file : String)
  | reduceAllEvt
  | buildQAEvt
  deriving Repr, DecidableEq

/-- Embedding of the quick-look NIRES CLI `main` (ql_keck_nires.py lines
30–98).  The setup/frame-typing steps before the environment check write no
files.  The environment variable lookup is the `nires_masters` argument;
its absence is fatal before any event.  `write_pypeit` is an external
collaborator whose returned file list is the `write_pypeit_out` parameter;
more than one returned file is an internal fatal error, an empty list dies
at `ofiles[0]` with an `IndexError`, and otherwise the pipeline object is
instantiated on the single file, run, and QA generated, returning 0. -/
def ql_nires_main (nires_masters : Option String)
    (write_pypeit_out : List String) : List QLEvent × Except PyErr ℕ :=
  match nires_masters with
  | none => ([], .error (.fatal
      "You need to set an Environmental variable NIRES_MASTERS that points at the Master Calibs"))
  | some _ =>
    let ofiles := write_pypeit_out
    let evts := [QLEvent.writeConfigEvt ofiles]
    if 1 < ofiles.length then
      (evts, .error (.fatal "Bad things happened.."))
    else
      match ofiles with
      | [] => (evts, .error (.indexError "list index out of range"))
      | f :: _ =>
        (evts ++ [QLEvent.instantiatePypeIt f, QLEvent.reduceAllEvt, QLEvent.buildQAEvt],
         .ok 0)

/-- Per-exposure slit-boundary descriptor (`tslits_dict`): the left and
right spatial trace of each slit as a function of spectral pixel. -/
structure TsDict (nspec nslits : ℕ) where
  slit_left : Fin nspec → Fin nslits → ℚ
  slit_righ : Fin nspec → Fin nslits → ℚ

/-- A single extracted-object record, reduced to the fields
`reference_trace_stack` consumes: slit index, object id and spatial trace. -/
structure SpecObjModel (nspec : ℕ) where
  slitid : ℕ
  objid : ℕ
  trace_spat : Fin nspec → ℚ

/-- The parts of the stack dictionary read by the reference-trace routines:
the per-exposure slit descriptors and extracted-object collections. -/
structure StackDictModel (nspec nslits : ℕ) where
  tslits_dict_list : List (TsDict nspec nslits)
  specobjs_list : List (List (SpecObjModel nspec))

/-- The object-id branch shared verbatim by the module-level
`reference_trace_stack` and the Echelle override: per exposure, select the
objects matching `(slitid, objid[iexp])` and assign the single matching
trace into the stack column; `objid` running out of entries is an
`IndexError`, and any match count other than one makes the numpy column
assignment fail with a broadcast `ValueError`. -/
def refTraceObjidColumns {nspec : ℕ} (slitid : ℕ) :
    List (List (SpecObjModel nspec)) → List ℕ →
    Except PyErr (List (Fin nspec → ℚ))
  | [], _ => .ok []
  | _ :: _, [] => .error (.indexError "list index out of range")
  | sobjs :: rest, oid :: orest =>
    match sobjs.filter (fun o => decide (o.slitid = slitid ∧ o.objid = oid)) with
    | [o] =>
      match refTraceObjidColumns slitid rest orest with
      | .error e => .error e
      | .ok tl => .ok (o.trace_spat :: tl)
    | _ => .error (.valueError "could not broadcast input array")

/-- Embedding of the module-level `reference_trace_stack` (coadd2d.py lines
148–174), with `numpy`/Python failures modelled explicitly.  Supplying both
inputs reaches the misspelled `msgs.errror`, which raises an
`AttributeError` rather than going through the reporting facility; supplying
neither dies at `nexp = ... len(objid)` with a `TypeError` before the
`msgs.error` of the final branch is ever reached.  The offsets branch reads
`tslits_dict_list[0]` (IndexError on an empty list) and then evaluates
`tslits_dict[:, slitid]['slit_left']`, a dict lookup keyed by a tuple
containing a slice, which raises `TypeError: unhashable type` on the first
loop iteration.  The result is the reference-trace stack as its list of
per-exposure columns. -/
def reference_trace_stack {nspec nslits : ℕ} (slitid : ℕ)
    (stack_dict : StackDictModel nspec nslits) (offsets : Option (List ℚ))
    (objid : Option (List ℕ)) : Except PyErr (List (Fin nspec → ℚ)) :=
  if offsets.isSome ∧ objid.isSome then
    .error (.attributeError "module pypeit.msgs has no attribute errror")
  else
    match offsets, objid with
    | none, none => .error (.typeError "object of type NoneType has no len")
    | some _, _ =>
      match stack_dict.tslits_dict_list with
      | [] => .error (.indexError "list index out of range")
      | _ :: _ => .error (.typeError "unhashable type: slice")
    | none, some oids =>
      match stack_dict.specobjs_list with
      | [] => .error (.indexError "list index out of range")
      | first :: _ =>
        match first with
        | [] => .error (.indexError "list index out of range")
        | _ :: _ => refTraceObjidColumns slitid stack_dict.specobjs_list oids

/-- Embedding of `Coadd2d.offset_slit_cen` (coadd2d.py lines 943–952): the
geometric slit-center trace of `slitid` per exposure, shifted by that
exposure's scalar offset; exhausting `offsets` is an `IndexError`, as is a
slit index beyond the descriptor. -/
def offsetSlitCenColumns {nspec nslits : ℕ} (slitid : ℕ) :
    List (TsDict nspec nslits) → List ℚ → Except PyErr (List (Fin nspec → ℚ))
  | [], _ => .ok []
  | _ :: _, [] => .error (.indexError "list index out of range")
  | td :: rest, off :: orest =>
    if h : slitid < nslits then
      match offsetSlitCenColumns slitid rest orest with
      | .error e => .error e
      | .ok tl =>
        .ok ((fun s => (td.slit_left s ⟨slitid, h⟩ + td.slit_righ s ⟨slitid, h⟩) / 2 + off) :: tl)
    else .error (.indexError "index is out of bounds")

/-- Embedding of `Coadd2d.offset_slit_cen` as called with the stack
dictionary's descriptor list (`tslits_dict_list[0]` is read first for the
shape, so an empty list is an `IndexError`). -/
def offset_slit_cen {nspec nslits : ℕ} (slitid : ℕ)
    (stack_dict : StackDictModel nspec nslits) (offsets : List ℚ) :
    Except PyErr (List (Fin nspec → ℚ)) :=
  match stack_dict.tslits_dict_list with
  | [] => .error (.indexError "list index out of range")
  | _ :: _ => offsetSlitCenColumns slitid stack_dict.tslits_dict_list offsets

/-- Embedding of `EchelleCoadd2d.reference_trace_stack` (coadd2d.py lines
1420–1443): identical both/neither handling to the module-level routine —
the same misspelled `msgs.errror` (AttributeError) for both, the same
`len(None)` `TypeError` for neither — with the offsets branch delegating to
`offset_slit_cen` and the objid branch identical to the module-level one. -/
def echelle_reference_trace_stack {nspec nslits : ℕ} (slitid : ℕ)
    (stack_dict : StackDictModel nspec nslits) (offsets : Option (List ℚ))
    (objid : Option (List ℕ)) : Except PyErr (List (Fin nspec → ℚ)) :=
  if offsets.isSome ∧ objid.isSome then
    .error (.attributeError "module pypeit.msgs has no attribute errror")
  else
    match offsets, objid with
    | none, none => .error (.typeError "object of type NoneType has no len")
    | some offs, _ => offset_slit_cen slitid stack_dict offs
    | none, some oids =>
      match stack_dict.specobjs_list with
      | [] => .error (.indexError "list index out of range")
      | first :: _ =>
        match first with
        | [] => .error (.indexError "list index out of range")
        | _ :: _ => refTraceObjidColumns slitid stack_dict.specobjs_list oids

/-- View of a typed (shape-correct) weight array as a plain ndarray. -/
def WeightsArr.toNDArr {n ns np : ℕ} : WeightsArr n ns np → NDArr
  | .rank1 w => .d1 n w
  | .rank2 w => .d2 n ns w
  | .rank3 w => .d3 n ns np w

/-- Coherence of the two views of weight broadcasting: on shape-correct
weights for a 3D stack, `broadcast_weights` succeeds and returns exactly the
stack produced by `broadcastWeights3` used inside `weighted_combine`. -/
theorem broadcast_weights_toNDArr {n ns np : ℕ} (W : WeightsArr n ns np) :
    broadcast_weights W.toNDArr [n, ns, np] =
      .ok (.d3 n ns np (broadcastWeights3 W)) := by
  cases W <;> simp [WeightsArr.toNDArr, broadcast_weights, broadcastWeights3]

/-- Per the specification's wording (used by claim C1): pixelwise weighted
mean `sum(value·weight·mask)/sum(weight·mask)` with 1 substituted in the
denominator wherever the weighted-mask sum is exactly zero; variance
propagated with squared weights over the squared denominator; `outmask` the
union over exposures of the per-exposure masks; `nused` the per-pixel count
of unmasked exposures. -/
def specWeightedCombine {n ns np : ℕ} (W : WeightsArr n ns np)
    (inmask_stack : MaskStack n ns np) (sci_list var_list : List (Stack n ns np)) :
    WCombineResult ns np :=
  let w := broadcastWeights3 W
  let wmsum : Img ns np := fun s p => ∑ i, w i s p * maskQ (inmask_stack i s p)
  let den : Img ns np := fun s p => if wmsum s p = 0 then 1 else wmsum s p
  { sci_list_out := sci_list.map (fun sci s p =>
      (∑ i, sci i s p * w i s p * maskQ (inmask_stack i s p)) / den s p)
    var_list_out := var_list.map (fun var s p =>
      (∑ i, var i s p * (w i s p) ^ 2 * maskQ (inmask_stack i s p)) / (den s p) ^ 2)
    outmask := fun s p => decide (∃ i, inmask_stack i s p = true)
    nused := fun s p => (Finset.univ.filter (fun i => inmask_stack i s p = true)).card }

/-- Per the specification's wording (used by claim C1): the all-good,
weight-one special case — the pixelwise mean of each science stack, the
variance mean over `N²`, an all-good output mask and `nused ≡ N`. -/
def specMeanCombine (n : ℕ) {ns np : ℕ} (sci_list var_list : List (Stack n ns np)) :
    WCombineResult ns np :=
  { sci_list_out := sci_list.map (fun sci s p => (∑ i, sci i s p) / (n : ℚ))
    var_list_out := var_list.map (fun var s p => (∑ i, var i s p) / ((n : ℚ)) ^ 2)
    outmask := fun _ _ => true
    nused := fun _ _ => n }

theorem maskQ_sq (b : Bool) : maskQ b ^ 2 = maskQ b := by
  cases b <;> simp [maskQ]

/-- C1: for every `weighted_combine` call with `nimgs ≥ 2` and
`sigma_clip = False` (the input mask used unchanged), the result is exactly
the specification's per-pixel formulas — science as
`sum(value·weight·mask)/sum(weight·mask)` and variance as
`sum(var·weight²·mask)/sum(weight·mask)²`, both with 1 substituted in the
denominator wherever the weighted-mask sum is exactly zero, `outmask` the
union over exposures of the per-exposure masks, `nused` the per-pixel count
of unmasked exposures — and in particular, for identical-shape stacks with
weight 1 per exposure and an all-good mask, the combined images are the
pixelwise means, `nused ≡ N` and `outmask` is all-good. -/
theorem weighted_combine_noclip_formulas {n ns np : ℕ}
    (sigclip_fn : SigClipOracle n ns np) (W : WeightsArr n ns np)
    (sci_list var_list : List (Stack n ns np)) (inmask_stack : MaskStack n ns np)
    (sigma_clip_stack : Option (Stack n ns np)) (sigrej : Option ℚ)
    (maxiters : ℕ) (h2 : 2 ≤ n) :
    weighted_combine sigclip_fn W sci_list var_list inmask_stack false
        sigma_clip_stack sigrej maxiters =
      .ok (specWeightedCombine W inmask_stack sci_list var_list) ∧
    (W = WeightsArr.rank1 (fun _ => 1) → (∀ i s p, inmask_stack i s p = true) →
      specWeightedCombine W inmask_stack sci_list var_list =
        specMeanCombine n sci_list var_list) := by
  have hn1 : ¬ n = 1 := by omega
  have hpos : 0 < n := by omega
  have hn0 : ((n : ℚ)) ≠ 0 := by exact_mod_cast (by omega : n ≠ 0)
  constructor
  · simp only [weighted_combine, dif_neg hn1]
    rw [if_neg (by simp)]
    refine congrArg Except.ok ?_
    simp only [wcombineCore, specWeightedCombine, WCombineResult.mk.injEq]
    have hden : ∀ s p, (∑ i, broadcastWeights3 W i s p * maskQ (inmask_stack i s p)) +
        (if (∑ i, broadcastWeights3 W i s p * maskQ (inmask_stack i s p)) = 0 then 1 else 0) =
        (if (∑ i, broadcastWeights3 W i s p * maskQ (inmask_stack i s p)) = 0 then 1
         else ∑ i, broadcastWeights3 W i s p * maskQ (inmask_stack i s p)) := by
      intro s p
      by_cases hS : (∑ i, broadcastWeights3 W i s p * maskQ (inmask_stack i s p)) = 0 <;>
        simp [hS]
    refine ⟨?_, ?_, trivial, trivial⟩
    · refine congrArg (fun f => List.map f sci_list) ?_
      funext sci s p
      rw [hden s p]
      congr 1
      exact Finset.sum_congr rfl (fun i _ => (mul_assoc _ _ _).symm)
    · refine congrArg (fun f => List.map f var_list) ?_
      funext var s p
      rw [hden s p]
      congr 1
      refine Finset.sum_congr rfl (fun i _ => ?_)
      rw [mul_pow, maskQ_sq, mul_assoc]
  · intro hW hm
    subst hW
    simp only [specWeightedCombine, specMeanCombine, broadcastWeights3,
      WCombineResult.mk.injEq]
    refine ⟨?_, ?_, ?_, ?_⟩
    · refine congrArg (fun f => List.map f sci_list) ?_
      funext sci s p
      simp [hm, maskQ, hn0]
    · refine congrArg (fun f => List.map f var_list) ?_
      funext var s p
      simp [hm, maskQ, hn0]
    · funext s p
      rw [decide_eq_true_eq]
      exact ⟨⟨0, hpos⟩, hm _ _ _⟩
    · funext s p
      rw [Finset.filter_true_of_mem (fun i _ => hm i s p)]
      simp

/-- Trivial sigma-clip oracle for concrete witnesses (irrelevant because the
witnesses disable sigma clipping). -/
def sigClipOracleEx : SigClipOracle 2 1 1 := fun _ _ _ m => m

/-- Concrete 2-exposure science stack for witnesses. -/
def sciStackEx : Stack 2 1 1 := fun i _ _ => if i.val = 0 then 1 else 3

/-- Concrete 2-exposure variance stack for witnesses. -/
def varStackEx : Stack 2 1 1 := fun _ _ _ => 2

/-- Concrete all-good 2-exposure mask for witnesses. -/
def maskAllEx : MaskStack 2 1 1 := fun _ _ _ => true

/-- Witness for C1 at a concrete 2-exposure, weight-1, all-good input. -/
theorem weighted_combine_noclip_formulas_witness :
    2 ≤ 2 ∧
    (weighted_combine sigClipOracleEx (WeightsArr.rank1 (fun _ => 1)) [sciStackEx]
        [varStackEx] maskAllEx false none none 5 =
      .ok (specWeightedCombine (WeightsArr.rank1 (fun _ => 1)) maskAllEx [sciStackEx]
            [varStackEx]) ∧
    ((WeightsArr.rank1 (fun _ => 1) : WeightsArr 2 1 1) = WeightsArr.rank1 (fun _ => 1) →
      (∀ i s p, maskAllEx i s p = true) →
      specWeightedCombine (WeightsArr.rank1 (fun _ => 1)) maskAllEx [sciStackEx]
          [varStackEx] =
        specMeanCombine 2 [sciStackEx] [varStackEx])) :=
  ⟨by norm_num,
   weighted_combine_noclip_formulas sigClipOracleEx (WeightsArr.rank1 (fun _ => 1))
     [sciStackEx] [varStackEx] maskAllEx none none 5 (by norm_num)⟩

theorem wcombineCore_mask_invariant {n ns np : ℕ} (W : WeightsArr n ns np)
    (m : MaskStack n ns np) (sci_list var_list : List (Stack n ns np))
    (s : Fin ns) (p : Fin np) :
    ((wcombineCore W m sci_list var_list).outmask s p = true ↔
      0 < (wcombineCore W m sci_list var_list).nused s p) ∧
    ((wcombineCore W m sci_list var_list).outmask s p = false →
      (∀ g ∈ (wcombineCore W m sci_list var_list).sci_list_out, g s p = 0) ∧
      (∀ g ∈ (wcombineCore W m sci_list var_list).var_list_out, g s p = 0)) := by
  constructor
  · simp only [wcombineCore, decide_eq_true_eq, Finset.card_pos,
      Finset.filter_nonempty_iff]
    constructor
    · rintro ⟨i, hi⟩; exact ⟨i, Finset.mem_univ i, hi⟩
    · rintro ⟨i, _, hi⟩; exact ⟨i, hi⟩
  · intro hmask
    have hall : ∀ i, m i s p = false := by
      intro i
      by_contra hne
      have : m i s p = true := by
        cases hmi : m i s p
        · exact absurd hmi hne
        · rfl
      have : (wcombineCore W m sci_list var_list).outmask s p = true := by
        simp only [wcombineCore, decide_eq_true_eq]
        exact ⟨i, this⟩
      rw [hmask] at this
      exact Bool.false_ne_true this
    constructor
    · intro g hg
      simp only [wcombineCore, List.mem_map] at hg
      obtain ⟨sci, _, rfl⟩ := hg
      have hz : (∑ x : Fin n, sci x s p * (broadcastWeights3 W x s p * maskQ (m x s p))) = 0 :=
        Finset.sum_eq_zero (fun i _ => by simp [hall i, maskQ])
      simp [hz]
    · intro g hg
      simp only [wcombineCore, List.mem_map] at hg
      obtain ⟨var, _, rfl⟩ := hg
      have hz : (∑ x : Fin n,
          var x s p * (broadcastWeights3 W x s p * maskQ (m x s p)) ^ 2) = 0 :=
        Finset.sum_eq_zero (fun i _ => by simp [hall i, maskQ])
      simp [hz]

/-- C9: in every `weighted_combine` call with `nimgs ≥ 2` that returns a
result, at every pixel `outmask` is true exactly when `nused` is positive,
and wherever `outmask` is false every combined science value and every
propagated variance value is exactly 0 (the zero-guarded denominator divides
a zero numerator). -/
theorem weighted_combine_outmask_nused {n ns np : ℕ}
    (sigclip_fn : SigClipOracle n ns np) (W : WeightsArr n ns np)
    (sci_list var_list : List (Stack n ns np)) (inmask_stack : MaskStack n ns np)
    (sigma_clip : Bool) (sigma_clip_stack : Option (Stack n ns np))
    (sigrej : Option ℚ) (maxiters : ℕ) (h2 : 2 ≤ n) (r : WCombineResult ns np)
    (hr : weighted_combine sigclip_fn W sci_list var_list inmask_stack sigma_clip
            sigma_clip_stack sigrej maxiters = .ok r) :
    ∀ s p, (r.outmask s p = true ↔ 0 < r.nused s p) ∧
      (r.outmask s p = false →
        (∀ g ∈ r.sci_list_out, g s p = 0) ∧ (∀ g ∈ r.var_list_out, g s p = 0)) := by
  have hn1 : ¬ n = 1 := by omega
  simp only [weighted_combine, dif_neg hn1] at hr
  by_cases hc : (sigma_clip = true ∧ 3 ≤ n)
  · rw [if_pos hc] at hr
    cases sigma_clip_stack with
    | none => simp at hr
    | some clip_stack =>
      simp only [Except.ok.injEq] at hr
      subst hr
      exact fun s p => wcombineCore_mask_invariant W _ sci_list var_list s p
  · rw [if_neg hc] at hr
    simp only [Except.ok.injEq] at hr
    subst hr
    exact fun s p => wcombineCore_mask_invariant W _ sci_list var_list s p

/-- Concrete mask with one fully-masked exposure for the C9 witness. -/
def maskHalfEx : MaskStack 2 1 1 := fun i _ _ => i.val = 0

/-- Witness for C9 at a concrete 2-exposure input. -/
theorem weighted_combine_outmask_nused_witness :
    2 ≤ 2 ∧
    weighted_combine sigClipOracleEx (WeightsArr.rank1 (fun _ => 1)) [sciStackEx]
        [varStackEx] maskHalfEx false none none 5 =
      .ok (wcombineCore (WeightsArr.rank1 (fun _ => 1)) maskHalfEx [sciStackEx]
            [varStackEx]) ∧
    (∀ s p, ((wcombineCore (WeightsArr.rank1 (fun _ => 1)) maskHalfEx [sciStackEx]
          [varStackEx]).outmask s p = true ↔
        0 < (wcombineCore (WeightsArr.rank1 (fun _ => 1)) maskHalfEx [sciStackEx]
          [varStackEx]).nused s p) ∧
      ((wcombineCore (WeightsArr.rank1 (fun _ => 1)) maskHalfEx [sciStackEx]
          [varStackEx]).outmask s p = false →
        (∀ g ∈ (wcombineCore (WeightsArr.rank1 (fun _ => 1)) maskHalfEx [sciStackEx]
          [varStackEx]).sci_list_out, g s p = 0) ∧
        (∀ g ∈ (wcombineCore (WeightsArr.rank1 (fun _ => 1)) maskHalfEx [sciStackEx]
          [varStackEx]).var_list_out, g s p = 0))) :=
  ⟨by norm_num,
   And.intro rfl
     (weighted_combine_outmask_nused sigClipOracleEx (WeightsArr.rank1 (fun _ => 1))
       [sciStackEx] [varStackEx] maskHalfEx false none none 5 (by norm_num) _ rfl)⟩

/-- C10: calling `weighted_combine` with `sigma_clip = True` on at least 3
images while leaving `sigma_clip_stack = None` aborts with a fatal error
(through the reporting facility) before any rejection or combination is
computed; the missing clip-reference stack is never defaulted. -/
theorem weighted_combine_missing_clip_stack {n ns np : ℕ}
    (sigclip_fn : SigClipOracle n ns np) (W : WeightsArr n ns np)
    (sci_list var_list : List (Stack n ns np)) (inmask_stack : MaskStack n ns np)
    (sigrej : Option ℚ) (maxiters : ℕ) (h3 : 3 ≤ n) :
    weighted_combine sigclip_fn W sci_list var_list inmask_stack true none
        sigrej maxiters =
      .error (.fatal
        "You must specify sigma_clip_stack, i.e. which quantity to use for sigma clipping") := by
  have hn1 : ¬ n = 1 := by omega
  simp only [weighted_combine, dif_neg hn1]
  rw [if_pos ⟨trivial, h3⟩]

/-- Sigma-clip oracle at 3 exposures for the C10 witness. -/
def sigClipOracleEx3 : SigClipOracle 3 1 1 := fun _ _ _ m => m

/-- Concrete 3-exposure stack for the C10 witness. -/
def sciStackEx3 : Stack 3 1 1 := fun _ _ _ => 1

/-- Concrete all-good 3-exposure mask for the C10 witness. -/
def maskAllEx3 : MaskStack 3 1 1 := fun _ _ _ => true

/-- Witness for C10 at a concrete 3-exposure input. -/
theorem weighted_combine_missing_clip_stack_witness :
    3 ≤ 3 ∧
    weighted_combine sigClipOracleEx3 (WeightsArr.rank1 (fun _ => 1)) [sciStackEx3]
        [sciStackEx3] maskAllEx3 true none none 5 =
      .error (.fatal
        "You must specify sigma_clip_stack, i.e. which quantity to use for sigma clipping") :=
  ⟨by norm_num,
   weighted_combine_missing_clip_stack sigClipOracleEx3 (WeightsArr.rank1 (fun _ => 1))
     [sciStackEx3] [sciStackEx3] maskAllEx3 none 5 (by norm_num)⟩

/-- Counterexample to C2: on the grid `[1, 2, ..., 100]` with
`wave_min = 10.4` and `wave_max = 50.6`, `get_wave_ind` returns the index
pair (9, 50) — the indices whose grid *values* are 10 and 51 — not the index
pair (10, 51) stated by the claim. -/
theorem get_wave_ind_claim_counterexample :
    (get_wave_ind waveGrid100 (52/5) (253/5)).1.1 = 9 ∧
    (get_wave_ind waveGrid100 (52/5) (253/5)).2.1 = 50 ∧
    ¬((get_wave_ind waveGrid100 (52/5) (253/5)).1.1 = 10 ∧
      (get_wave_ind waveGrid100 (52/5) (253/5)).2.1 = 51) := by
  with_unfolding_all decide

/-- C2 as amended: on the grid `[1, 2, ..., 100]` with `wave_min = 10.4`
and `wave_max = 50.6`, `get_wave_ind` returns indices (9, 50) with no
warnings — the closest grid point not exceeding the lower extremum (value
10) and the closest grid point not undershooting the upper extremum (value
51); a `wave_min` below every grid point yields lower index 0 with a
warning, and a `wave_max` above every grid point yields the grid's last
index with a warning. -/
theorem get_wave_ind_corrected :
    (get_wave_ind waveGrid100 (52/5) (253/5) = ((9, false), (50, false))) ∧
    (∀ (g : List ℚ) (wmin wmax : ℚ), (∀ x ∈ g, wmin < x) →
      (get_wave_ind g wmin wmax).1 = (0, true)) ∧
    (∀ (g : List ℚ) (wmin wmax : ℚ), (∀ x ∈ g, x < wmax) →
      (get_wave_ind g wmin wmax).2 = (g.length - 1, true)) := by
  refine ⟨by with_unfolding_all decide, ?_, ?_⟩
  · intro g wmin wmax h
    simp only [get_wave_ind]
    rw [if_neg]
    simp only [List.any_eq_true, List.mem_map, decide_eq_true_eq, not_exists, not_and]
    rintro d ⟨x, hx, rfl⟩
    rw [if_pos (by linarith [h x hx])]
    exact not_top_lt
  · intro g wmin wmax h
    simp only [get_wave_ind]
    rw [if_neg]
    simp only [List.any_eq_true, List.mem_map, decide_eq_true_eq, not_exists, not_and]
    rintro d ⟨x, hx, rfl⟩
    rw [if_pos (by linarith [h x hx])]
    exact not_top_lt

/-- Witness for the hypotheses of the general warning clauses of the amended
C2, at a concrete two-point grid. -/
theorem get_wave_ind_corrected_witness :
    (∀ x ∈ [(5 : ℚ), 7], (2 : ℚ) < x) ∧
    (get_wave_ind [(5 : ℚ), 7] 2 100).1 = (0, true) ∧
    (∀ x ∈ [(5 : ℚ), 7], x < (100 : ℚ)) ∧
    (get_wave_ind [(5 : ℚ), 7] 2 100).2 = ([(5 : ℚ), 7].length - 1, true) :=
  ⟨by norm_num, get_wave_ind_corrected.2.1 [5, 7] 2 100 (by norm_num),
   by norm_num, get_wave_ind_corrected.2.2 [5, 7] 2 100 (by norm_num)⟩

/-- Counterexample to C3: rank-2 weights of shape (2, 3) against the 3D
target shape (2, 4, 5) neither abort nor match — `broadcast_weights`
silently returns an array of shape (2, 3, 5). -/
theorem broadcast_weights_claim_counterexample :
    broadcast_weights (NDArr.d2 2 3 (fun _ _ => 1)) [2, 4, 5] =
      .ok (NDArr.d3 2 3 5 (fun _ _ _ => 1)) ∧
    NDArr.shape (NDArr.d3 2 3 5 (fun _ _ _ => (1 : ℚ))) ≠ [2, 4, 5] :=
  ⟨rfl, by decide⟩

/-- C3 as amended: a rank-2 weight array mismatching a 2D target is fatal,
a rank-3 weight array mismatching any target is fatal, any rank other than
1–3 is fatal, and every successful call returns either exactly the target
shape or — in the one unchecked case, rank-2 weights against a 3D target —
the weights' own shape extended by the target's trailing (spatial) axis. -/
theorem broadcast_weights_corrected (w : NDArr) (shape : List ℕ) :
    (∀ a b f, w = NDArr.d2 a b f → shape.length = 2 → NDArr.shape w ≠ shape →
      broadcast_weights w shape =
        .error (.fatal "The shape of weights does not match the shape of the image stack")) ∧
    (∀ a b c f, w = NDArr.d3 a b c f → NDArr.shape w ≠ shape →
      broadcast_weights w shape =
        .error (.fatal "The shape of weights does not match the shape of the image stack")) ∧
    (∀ dims hd, w = NDArr.dOther dims hd →
      broadcast_weights w shape =
        .error (.fatal "Unrecognized dimensionality for weights")) ∧
    (∀ arr, broadcast_weights w shape = .ok arr →
      NDArr.shape arr = shape ∨
      (NDArr.ndim w = 2 ∧ shape.length = 3 ∧
        NDArr.shape arr = NDArr.shape w ++ shape.drop 2)) := by
  refine ⟨?_, ?_, ?_, ?_⟩
  · rintro a b f rfl hlen hne
    rcases shape with _ | ⟨s0, _ | ⟨s1, _ | ⟨s2, rest⟩⟩⟩ <;> simp at hlen
    simp only [NDArr.shape] at hne
    simp [broadcast_weights, hne]
  · rintro a b c f rfl hne
    simp only [NDArr.shape] at hne
    simp [broadcast_weights, hne]
  · rintro dims hd rfl
    rcases shape with _ | ⟨s0, _ | ⟨s1, _ | ⟨s2, rest⟩⟩⟩ <;> rfl
  · intro arr harr
    cases w with
    | d1 a f =>
      rcases shape with _ | ⟨s0, _ | ⟨s1, _ | ⟨s2, _ | ⟨s3, rest⟩⟩⟩⟩ <;>
        simp only [broadcast_weights] at harr
      · exact absurd harr (by simp)
      · exact absurd harr (by simp)
      · by_cases ha : a = s0
        · rw [if_pos ha] at harr
          simp only [Except.ok.injEq] at harr
          subst harr
          exact Or.inl (by simp [NDArr.shape, ha])
        · rw [if_neg ha] at harr
          exact absurd harr (by simp)
      · by_cases ha : a = s0
        · rw [if_pos ha] at harr
          simp only [Except.ok.injEq] at harr
          subst harr
          exact Or.inl (by simp [NDArr.shape, ha])
        · rw [if_neg ha] at harr
          exact absurd harr (by simp)
      · exact absurd harr (by simp)
    | d2 a b f =>
      rcases shape with _ | ⟨s0, _ | ⟨s1, _ | ⟨s2, _ | ⟨s3, rest⟩⟩⟩⟩ <;>
        simp only [broadcast_weights] at harr
      · exact absurd harr (by simp)
      · exact absurd harr (by simp)
      · by_cases ha : [a, b] = [s0, s1]
        · rw [if_pos ha] at harr
          simp only [Except.ok.injEq] at harr
          subst harr
          exact Or.inl (by simpa [NDArr.shape] using ha)
        · rw [if_neg ha] at harr
          exact absurd harr (by simp)
      · simp only [Except.ok.injEq] at harr
        subst harr
        exact Or.inr ⟨rfl, rfl, by simp [NDArr.shape, NDArr.ndim]⟩
      · exact absurd harr (by simp)
    | d3 a b c f =>
      by_cases ha : [a, b, c] = shape
      · simp only [broadcast_weights] at harr
        rw [if_pos ha] at harr
        simp only [Except.ok.injEq] at harr
        subst harr
        exact Or.inl (by simpa [NDArr.shape] using ha)
      · simp only [broadcast_weights] at harr
        rw [if_neg ha] at harr
        exact absurd harr (by simp)
    | dOther dims hd =>
      rcases shape with _ | ⟨s0, _ | ⟨s1, _ | ⟨s2, rest⟩⟩⟩ <;>
        exact absurd harr (by simp [broadcast_weights])

/-- A rank-0 ndarray (scalar) for the C3 witness's unsupported-rank case. -/
def dOtherEx : NDArr := NDArr.dOther [] (by decide)

/-- Witness for the amended C3 at concrete weight arrays of each rank. -/
theorem broadcast_weights_corrected_witness :
    ((NDArr.d2 1 1 (fun _ _ => 2) : NDArr) = NDArr.d2 1 1 (fun _ _ => 2)) ∧
    (([2, 2] : List ℕ).length = 2) ∧
    (NDArr.shape (NDArr.d2 1 1 (fun _ _ => 2)) ≠ [2, 2]) ∧
    (broadcast_weights (NDArr.d2 1 1 (fun _ _ => 2)) [2, 2] =
      .error (.fatal "The shape of weights does not match the shape of the image stack")) ∧
    (NDArr.shape (NDArr.d3 1 1 1 (fun _ _ _ => 2)) ≠ [2, 2, 2]) ∧
    (broadcast_weights (NDArr.d3 1 1 1 (fun _ _ _ => 2)) [2, 2, 2] =
      .error (.fatal "The shape of weights does not match the shape of the image stack")) ∧
    (broadcast_weights dOtherEx [2, 2] =
      .error (.fatal "Unrecognized dimensionality for weights")) ∧
    (broadcast_weights (NDArr.d1 2 (fun _ => 2)) [2, 3] =
      .ok (NDArr.d2 2 3 (fun _ _ => 2))) ∧
    (NDArr.shape (NDArr.d2 2 3 (fun _ _ => 2)) = [2, 3] ∨
      (NDArr.ndim (NDArr.d1 2 (fun _ => 2)) = 2 ∧ ([2, 3] : List ℕ).length = 3 ∧
        NDArr.shape (NDArr.d2 2 3 (fun _ _ => 2)) =
          NDArr.shape (NDArr.d1 2 (fun _ => 2)) ++ List.drop 2 [2, 3])) :=
  ⟨rfl, rfl, by decide,
   (broadcast_weights_corrected (NDArr.d2 1 1 (fun _ _ => 2)) [2, 2]).1 1 1
     (fun _ _ => 2) rfl rfl (by decide),
   by decide,
   (broadcast_weights_corrected (NDArr.d3 1 1 1 (fun _ _ _ => 2)) [2, 2, 2]).2.1 1 1 1
     (fun _ _ _ => 2) rfl (by decide),
   (broadcast_weights_corrected dOtherEx [2, 2]).2.2.1 [] (by decide) rfl,
   rfl,
   (broadcast_weights_corrected (NDArr.d1 2 (fun _ => 2)) [2, 3]).2.2.2
     (NDArr.d2 2 3 (fun _ _ => 2)) rfl⟩

/-- Concrete stack dictionary (one exposure, one slit, one traced object)
used to evaluate the reference-trace routines at the failing inputs. -/
def stackDictEx : StackDictModel 1 1 :=
  { tslits_dict_list := [⟨fun _ _ => 0, fun _ _ => 1⟩]
    specobjs_list := [[⟨0, 1, fun _ => 0⟩]] }

/-- C4 (code bug): supplying both offsets and an objid to
`reference_trace_stack` — module-level or Echelle override — aborts through
the misspelled `msgs.errror`, i.e. a raw `AttributeError`, and supplying
neither dies at `len(None)` with a raw `TypeError` before the intended
`msgs.error` branch is reached; neither path goes through the shared
error-reporting facility (`PyErr.fatal`), contrary to the code's own
intended `msgs.error` calls. -/
theorem reference_trace_stack_both_neither :
    (reference_trace_stack 0 stackDictEx (some [0]) (some [1]) =
      .error (.attributeError "module pypeit.msgs has no attribute errror")) ∧
    (reference_trace_stack 0 stackDictEx none none =
      .error (.typeError "object of type NoneType has no len")) ∧
    (echelle_reference_trace_stack 0 stackDictEx (some [0]) (some [1]) =
      .error (.attributeError "module pypeit.msgs has no attribute errror")) ∧
    (echelle_reference_trace_stack 0 stackDictEx none none =
      .error (.typeError "object of type NoneType has no len")) ∧
    (∀ s, reference_trace_stack 0 stackDictEx (some [0]) (some [1]) ≠
      .error (.fatal s)) ∧
    (∀ s, reference_trace_stack 0 stackDictEx none none ≠ .error (.fatal s)) ∧
    (∀ s, echelle_reference_trace_stack 0 stackDictEx (some [0]) (some [1]) ≠
      .error (.fatal s)) ∧
    (∀ s, echelle_reference_trace_stack 0 stackDictEx none none ≠
      .error (.fatal s)) := by
  refine ⟨rfl, rfl, rfl, rfl, ?_, ?_, ?_, ?_⟩
  · intro s h
    simp [reference_trace_stack] at h
  · intro s h
    simp [reference_trace_stack] at h
  · intro s h
    simp [echelle_reference_trace_stack] at h
  · intro s h
    simp [echelle_reference_trace_stack] at h

/-- Counterexample to C5: under amplifier mode `ALL` and binning `1,1` with
no master bias, the pixel at row 2100, column 3676 — outside the claim's
block rows 3676–3676 × columns 2056–2244 — is marked bad, while the pixel at
row 3676, column 2100 — inside the claim's block — is left good. -/
theorem kcwiB_bpm_claim_counterexample :
    kcwiB_bpm (fun _ _ => 0) false "ALL" "1,1" 2100 3676 = 1 ∧
    ¬(3676 ≤ (2100 : ℕ) ∧ (2100 : ℕ) ≤ 3676 ∧ 2056 ≤ (3676 : ℕ) ∧ (3676 : ℕ) ≤ 2244) ∧
    kcwiB_bpm (fun _ _ => 0) false "ALL" "1,1" 3676 2100 = 0 ∧
    (3676 ≤ (3676 : ℕ) ∧ (3676 : ℕ) ≤ 3676 ∧ 2056 ≤ (2100 : ℕ) ∧ (2100 : ℕ) ≤ 2244) := by
  decide

/-- C5 as amended: for amplifier mode `ALL`, binning `1,1`, no master bias,
the mask is 1 exactly on the inclusive block rows 2056–2244 ×
columns 3676–3676 (the table entry read as `[col_lo, col_hi, row_lo,
row_hi]`) and 0 everywhere else. -/
theorem kcwiB_bpm_ALL_binning11 (bpm_frombias : ℕ → ℕ → ℕ) (r c : ℕ) :
    (kcwiB_bpm bpm_frombias false "ALL" "1,1" r c = 1 ↔
      (2056 ≤ r ∧ r ≤ 2244 ∧ 3676 ≤ c ∧ c ≤ 3676)) ∧
    (kcwiB_bpm bpm_frombias false "ALL" "1,1" r c = 0 ↔
      ¬(2056 ≤ r ∧ r ≤ 2244 ∧ 3676 ≤ c ∧ c ≤ 3676)) := by
  have htab : kcwiB_badcol_table "ALL" "1,1" = some [⟨3676, 3676, 2056, 2244⟩] := rfl
  simp only [kcwiB_bpm, if_neg (by simp : ¬(false = true)), htab, Option.getD_some,
    List.any_cons, List.any_nil, Bool.or_false, decide_eq_true_eq]
  constructor
  · split
    · simp_all
    · simp_all
  · split
    · simp_all
    · simp_all

/-- C6: with no exposure-time range filter, a metadata row types as
`science` exactly when every lamp-status field reads `0` or the literal
string `None` and the hatch field is `1`; it types as `bias` exactly when
the same all-lamps-off condition holds and the hatch field is `0`; and
`pinhole` is always all-false regardless of header contents. -/
theorem kcwi_frame_type_science_bias_pinhole (row : KCWIMetaRow) :
    (kcwi_check_frame_type "science" row none = .ok true ↔
      ((row.lampstat01 = "0" ∨ row.lampstat01 = "None") ∧
       (row.lampstat02 = "0" ∨ row.lampstat02 = "None") ∧
       (row.lampstat03 = "0" ∨ row.lampstat03 = "None") ∧
       (row.lampstat04 = "0" ∨ row.lampstat04 = "None")) ∧ row.hatch = "1") ∧
    (kcwi_check_frame_type "bias" row none = .ok true ↔
      ((row.lampstat01 = "0" ∨ row.lampstat01 = "None") ∧
       (row.lampstat02 = "0" ∨ row.lampstat02 = "None") ∧
       (row.lampstat03 = "0" ∨ row.lampstat03 = "None") ∧
       (row.lampstat04 = "0" ∨ row.lampstat04 = "None")) ∧ row.hatch = "0") ∧
    (kcwi_check_frame_type "pinhole" row none = .ok false) := by
  refine ⟨?_, ?_, rfl⟩ <;>
    simp [kcwi_check_frame_type, kcwi_lamps, check_frame_exptime, and_assoc,
      Bool.and_eq_true, Bool.or_eq_true, beq_iff_eq]

/-- C7: `save_all` creates the output directory when absent; when the
aggregated object collection is empty it warns and writes only the 2D file;
otherwise it writes the 1D FITS file, the ASCII summary table and the 2D
file, all under the caller-specified directory. -/
theorem save_all_written_files (α : Type) (dirExists : Bool)
    (sci_dict : List (Option (List α))) (scipath basename : String) :
    ((sci_dict.filterMap id).flatten = [] →
      save_all dirExists sci_dict scipath basename =
        (if dirExists then [] else [SaveEvent.mkdirEvt scipath]) ++
        [SaveEvent.warnEvt "No objects to save. Only writing spec2d files!",
         SaveEvent.writeFitsEvt (pathJoin scipath ("spec2d_" ++ basename ++ ".fits"))]) ∧
    ((sci_dict.filterMap id).flatten ≠ [] →
      save_all dirExists sci_dict scipath basename =
        (if dirExists then [] else [SaveEvent.mkdirEvt scipath]) ++
        [SaveEvent.writeFitsEvt (pathJoin scipath ("spec1d_" ++ basename ++ ".fits")),
         SaveEvent.writeTxtEvt (pathJoin scipath ("spec1d_" ++ basename ++ ".txt")),
         SaveEvent.writeFitsEvt (pathJoin scipath ("spec2d_" ++ basename ++ ".fits"))]) ∧
    (dirExists = false →
      SaveEvent.mkdirEvt scipath ∈ save_all dirExists sci_dict scipath basename) := by
  refine ⟨?_, ?_, ?_⟩
  · intro hempty
    simp [save_all, save_obj_info, hempty]
  · intro hne
    have hlen : ¬(sci_dict.filterMap id).flatten.length = 0 := fun h0 =>
      hne (List.length_eq_zero.mp h0)
    simp only [save_all, save_obj_info]
    rw [if_neg hlen, if_pos (Nat.pos_of_ne_zero hlen)]
    simp
  · intro hdir
    subst hdir
    simp [save_all]

/-- Witness for the hypotheses of C7 at concrete detector dictionaries. -/
theorem save_all_written_files_witness :
    (((([none, some []] : List (Option (List ℕ))).filterMap id).flatten = []) →
      save_all false ([none, some []] : List (Option (List ℕ))) "Science" "base" =
        (if false then [] else [SaveEvent.mkdirEvt "Science"]) ++
        [SaveEvent.warnEvt "No objects to save. Only writing spec2d files!",
         SaveEvent.writeFitsEvt (pathJoin "Science" ("spec2d_" ++ "base" ++ ".fits"))]) ∧
    (((([some [7]] : List (Option (List ℕ))).filterMap id).flatten ≠ []) →
      save_all true ([some [7]] : List (Option (List ℕ))) "Science" "base" =
        (if true then [] else [SaveEvent.mkdirEvt "Science"]) ++
        [SaveEvent.writeFitsEvt (pathJoin "Science" ("spec1d_" ++ "base" ++ ".fits")),
         SaveEvent.writeTxtEvt (pathJoin "Science" ("spec1d_" ++ "base" ++ ".txt")),
         SaveEvent.writeFitsEvt (pathJoin "Science" ("spec2d_" ++ "base" ++ ".fits"))]) ∧
    ((false = false) →
      SaveEvent.mkdirEvt "Science" ∈ save_all false [(none : Option (List ℕ))] "Science" "base") :=
  ⟨(save_all_written_files ℕ false [none, some []] "Science" "base").1,
   (save_all_written_files ℕ true [some [7]] "Science" "base").2.1,
   (save_all_written_files ℕ false [none] "Science" "base").2.2⟩

/-- C8: with `NIRES_MASTERS` unset the quick-look NIRES `main` aborts with
the fatal configuration error before the configuration file is written and
before the pipeline object is instantiated (the event trace is empty); with
it set and a single generated configuration file, the run completes and
returns exit status 0 after writing the configuration, instantiating the
pipeline, reducing and generating QA. -/
theorem ql_nires_main_env_gate (write_pypeit_out : List String) (d f : String) :
    (ql_nires_main none write_pypeit_out =
      ([], .error (.fatal
        "You need to set an Environmental variable NIRES_MASTERS that points at the Master Calibs"))) ∧
    (∀ fs, QLEvent.writeConfigEvt fs ∉ (ql_nires_main none write_pypeit_out).1) ∧
    (∀ g, QLEvent.instantiatePypeIt g ∉ (ql_nires_main none write_pypeit_out).1) ∧
    (ql_nires_main (some d) [f] =
      ([QLEvent.writeConfigEvt [f], QLEvent.instantiatePypeIt f,
        QLEvent.reduceAllEvt, QLEvent.buildQAEvt], .ok 0)) := by
  refine ⟨rfl, ?_, ?_, ?_⟩
  · intro fs
    simp [ql_nires_main]
  · intro g
    simp [ql_nires_main]
  · simp [ql_nires_main]
